import Mathlib

/-!
Verification development for the billing application.

The embedding models the core logic of the app component (invoice total
computation, invoice numbering, invoice persistence with its firm-counter
side effect, customer list maintenance) and the firm-setup input sanitizer.
Money amounts and JS numbers are modelled as rationals, invoice counters and
timestamps as integers; optional (possibly `undefined`) JS values are
modelled as `Option`; JS string truthiness (`""` is falsy) is modelled
explicitly.  Remote-store calls are modelled by an environment recording the
outcome of each call, and component state plus the relevant store documents
by an explicit state record.
-/

/-- Product record (types: `Product`). -/
structure Product where
  id : Int
  name : String
  price : Rat
  docId : Option String := none
deriving Repr, DecidableEq

/-- Line item of a bill (types: `BillItem`). -/
structure BillItem where
  product : Product
  quantity : Rat
  lineId : Option String := none
  gstRate : Option Rat := none
deriving Repr, DecidableEq

/-- Invoice numbering configuration (`FirmDetails.invoiceFormat`). -/
structure InvoiceFormat where
  type : Option String := none
  startNumber : Option Int := none
  currentNumber : Option Int := none
deriving Repr, DecidableEq

/-- Display settings; only the field relevant to invoice numbering. -/
structure DisplaySettings where
  customInvoicePrefix : Option String := none
deriving Repr, DecidableEq

/-- Firm configuration (types: `FirmDetails`), the fields numbering uses. -/
structure FirmDetails where
  firmName : String
  displaySettings : Option DisplaySettings := none
  invoiceFormat : Option InvoiceFormat := none
deriving Repr, DecidableEq

/-- In-memory invoice (types: `InvoiceData`); `date` is an opaque timestamp. -/
structure InvoiceData where
  id : Option String := none
  invoiceNumber : String
  date : Int
  customerName : String
  customerPhone : String
  items : List BillItem
  subtotal : Rat
  gstAmount : Rat
  grandTotal : Rat
  userId : String
  createdAt : Option Int := none
deriving Repr, DecidableEq

/-- `billItems.reduce((acc, item) => acc + item.product.price * item.quantity, 0)`. -/
def computeSubtotal (billItems : List BillItem) : Rat :=
  billItems.foldl (fun acc item => acc + item.product.price * item.quantity) 0

/-- The per-item GST reduce of `handleGenerateBill`:
`acc + itemTotal * ((item.gstRate ?? GST_RATE * 100) / 100)` where `GST_RATE`
is the configured global default rate (a fraction, so `GST_RATE * 100` is the
default percentage). -/
def computeGstAmount (GST_RATE : Rat) (billItems : List BillItem) : Rat :=
  billItems.foldl (fun acc item =>
    acc + (item.product.price * item.quantity) *
      ((item.gstRate.getD (GST_RATE * 100)) / 100)) 0

/-! ## String helpers for invoice-prefix generation -/

/-- JS `value.replace(/[^a-zA-Z0-9]/g, '')`: keep ASCII alphanumerics. -/
def stripNonAlnum (s : String) : String :=
  String.mk (s.toList.filter Char.isAlphanum)

/-- JS `.toUpperCase()` (faithful on the ASCII alphanumerics it is applied to). -/
def jsUpper (s : String) : String :=
  String.mk (s.toList.map Char.toUpper)

/-- JS `.trim()`: drop leading and trailing whitespace. -/
def jsTrim (s : String) : String :=
  String.mk (((s.toList.dropWhile Char.isWhitespace).reverse.dropWhile
    Char.isWhitespace).reverse)

/-- Maximal runs of non-whitespace characters. -/
def splitWsAux : List Char → List Char → List (List Char)
  | [], acc => if acc = [] then [] else [acc.reverse]
  | c :: rest, acc =>
    if c.isWhitespace then
      if acc = [] then splitWsAux rest []
      else acc.reverse :: splitWsAux rest []
    else splitWsAux rest (c :: acc)

/-- JS `firmName.trim().split(/\s+/)` (on an already-trimmed string this is
the list of maximal non-whitespace runs). -/
def wordsOf (s : String) : List String :=
  (splitWsAux (jsTrim s).toList []).map String.mk

/-- JS `s.substring(0, n)`. -/
def strTake (s : String) (n : Nat) : String :=
  String.mk (s.toList.take n)

/-- JS `s || 'INV'` (a string is falsy exactly when empty). -/
def orInv (s : String) : String :=
  if s = "" then "INV" else s

/-- `generateInvoicePrefix` (App): derive an invoice prefix from the firm
name, `'INV'` for a missing or blank name. -/
def generateInvoicePrefix (firmName : Option String) : String :=
  match firmName with
  | none => "INV"
  | some name =>
    if jsTrim name = "" then "INV"
    else
      let cleanName := jsUpper (stripNonAlnum name)
      match wordsOf name with
      | [_w] => orInv (strTake cleanName (min 4 cleanName.length))
      | [w1, w2] =>
        orInv (strTake (jsUpper (stripNonAlnum w1)) 2 ++
               strTake (jsUpper (stripNonAlnum w2)) 2)
      | ws =>
        orInv (jsUpper (String.mk
          ((ws.take (min 5 ws.length)).filterMap
            (fun w => (stripNonAlnum w).toList.head?))))

/-! ## Invoice numbering -/

/-- JS truthiness of an optional string (`undefined` and `""` are falsy). -/
def strTruthy : Option String → Bool
  | none => false
  | some s => s ≠ ""

/-- JS `x || y` on an optional string `x`. -/
def jsOrStr (x : Option String) (y : String) : String :=
  match x with
  | some s => if s = "" then y else s
  | none => y

/-- JS `startNumber || 1`: `0` and `undefined` are falsy. -/
def startOr1 (startNumber : Option Int) : Int :=
  match startNumber with
  | none => 1
  | some s => if s = 0 then 1 else s

/-- `(firmDetails.invoiceFormat.currentNumber ?? (firmDetails.invoiceFormat.startNumber || 1) - 1) + 1`. -/
def nextNum (fmt : InvoiceFormat) : Int :=
  (match fmt.currentNumber with
   | some c => c
   | none => startOr1 fmt.startNumber - 1) + 1

/-- `firmDetails?.displaySettings?.customInvoicePrefix` for an optional firm. -/
def customPfx (firm : Option FirmDetails) : Option String :=
  firm.bind (fun f => f.displaySettings.bind (fun ds => ds.customInvoicePrefix))

/-- `firmDetails?.invoiceFormat?.type === 'sequential'`. -/
def isSequential (firm : Option FirmDetails) : Bool :=
  match firm with
  | none => false
  | some f =>
    match f.invoiceFormat with
    | none => false
    | some fmt => fmt.type = some "sequential"

/-- Sequential-mode rendering: ``prefix ? `${prefix}-${nextNum}` : `${nextNum}` ``. -/
def seqNumberString (p : Option String) (n : Int) : String :=
  match p with
  | some s => if s = "" then toString n else s ++ "-" ++ toString n
  | none => toString n

/-- The sequential branch of `handleGenerateBill`. -/
def seqInvoiceNumber (f : FirmDetails) (fmt : InvoiceFormat) : String :=
  seqNumberString (f.displaySettings.bind (fun ds => ds.customInvoicePrefix))
    (nextNum fmt)

/-- The freeform branch of `handleGenerateBill`:
``invoicePrefix = customInvoicePrefix || generateInvoicePrefix(firmName)``,
then ```${invoicePrefix}-${Date.now()}` `` with `now` the clock reading. -/
def freeformInvoiceNumber (firm : Option FirmDetails) (now : Int) : String :=
  jsOrStr (customPfx firm) (generateInvoicePrefix (firm.map FirmDetails.firmName))
    ++ "-" ++ toString now

/-- Invoice number for a new (non-editing) invoice. -/
def newInvoiceNumber (firm : Option FirmDetails) (now : Int) : String :=
  match firm with
  | some f =>
    match f.invoiceFormat with
    | some fmt =>
      if fmt.type = some "sequential" then seqInvoiceNumber f fmt
      else freeformInvoiceNumber firm now
    | none => freeformInvoiceNumber firm now
  | none => freeformInvoiceNumber firm now

/-- `handleGenerateBill` (App): build the invoice preview.  `now` models
`Date.now()`; the `user` guard is outside the model (a user is logged in). -/
def handleGenerateBill (GST_RATE : Rat) (now : Int) (userId : String)
    (editingInvoice : Option InvoiceData) (firmDetails : Option FirmDetails)
    (customerName customerPhone : String) (billItems : List BillItem)
    (billDate : Int) : InvoiceData :=
  let subtotal := computeSubtotal billItems
  let gstAmount := computeGstAmount GST_RATE billItems
  { invoiceNumber :=
      match editingInvoice with
      | some e => e.invoiceNumber
      | none => newInvoiceNumber firmDetails now
    date := billDate
    customerName := customerName
    customerPhone := customerPhone
    items := billItems
    subtotal := subtotal
    gstAmount := gstAmount
    grandTotal := subtotal + gstAmount
    userId := userId
    id :=
      match editingInvoice with
      | some e => if strTruthy e.id then e.id else none
      | none => none
    createdAt := none }

/-! ## Invoice persistence (`handleSaveInvoice`) -/

/-- Stored product copy: `const { docId, ...restProduct } = product;
cleanProduct = { ...restProduct, ...(docId ? { docId } : {}) }`. -/
structure StoredProduct where
  id : Int
  name : String
  price : Rat
  docId : Option String := none
deriving Repr, DecidableEq

/-- Stored line item after sanitization. -/
structure StoredItem where
  product : StoredProduct
  quantity : Rat
  lineId : Option String := none
  gstRate : Option Rat := none
deriving Repr, DecidableEq

/-- Persisted invoice document (`finalDataToSave` plus store timestamps). -/
structure StoredInvoice where
  invoiceNumber : String
  date : Int
  customerName : String
  customerPhone : String
  items : List StoredItem
  subtotal : Rat
  gstAmount : Rat
  grandTotal : Rat
  userId : String
  createdAt : Option Int := none
  updatedAt : Option Int := none
deriving Repr, DecidableEq

/-- Keep an optional string field only when truthy (`...(x ? { x } : {})`). -/
def keepTruthy : Option String → Option String
  | none => none
  | some s => if s = "" then none else some s

/-- One element of `sanitizedItems`: drop `lineId` and `docId` unless truthy,
keep `gstRate` whenever it is not `undefined`. -/
def sanitizeItem (item : BillItem) : StoredItem :=
  { product :=
      { id := item.product.id
        name := item.product.name
        price := item.product.price
        docId := keepTruthy item.product.docId }
    quantity := item.quantity
    lineId := keepTruthy item.lineId
    gstRate := item.gstRate }

/-- `finalDataToSave`: the invoice minus `date`/`id` destructured out, with
sanitized items and the `Date` put back; no store timestamps yet. -/
def finalDataToSave (inv : InvoiceData) : StoredInvoice :=
  { invoiceNumber := inv.invoiceNumber
    date := inv.date
    customerName := inv.customerName
    customerPhone := inv.customerPhone
    items := inv.items.map sanitizeItem
    subtotal := inv.subtotal
    gstAmount := inv.gstAmount
    grandTotal := inv.grandTotal
    userId := inv.userId
    createdAt := inv.createdAt
    updatedAt := none }

/-- Outcomes of the remote-store calls one save can make, plus the server
clock.  `createOutcome = some id` means `addDoc` succeeds and assigns `id`;
`none` means it throws. -/
structure StoreEnv where
  createOutcome : Option String := none
  updateOk : Bool := true
  firmUpdateOk : Bool := true
  now : Int := 0
deriving Repr

/-- Component state plus the store documents a save can touch:
`firmDetails` is the React state, `firmStore` the `firmDetails/{uid}`
document, `invoices` the `invoices` collection as an association list. -/
structure AppState where
  firmDetails : Option FirmDetails := none
  firmStore : Option FirmDetails := none
  invoices : List (String × StoredInvoice) := []
  currentInvoice : Option InvoiceData := none
  editingInvoice : Option InvoiceData := none
deriving Repr

/-- `setFirmDetails(prev => ({ ...prev, invoiceFormat: { ...prev.invoiceFormat!,
currentNumber } }))`, and the dot-notation store update of the same field. -/
def setCurrentNumber (f : FirmDetails) (n : Int) : FirmDetails :=
  { f with
    invoiceFormat := some ({ (f.invoiceFormat.getD ({} : InvoiceFormat)) with
      currentNumber := some n }) }

/-- `updateDoc` of an invoice: fields of the payload overwrite the stored
document; `createdAt` is in the payload only when the in-memory invoice
carried one, and `updatedAt: serverTimestamp()`. -/
def applyInvoiceUpdate (old payload : StoredInvoice) (now : Int) : StoredInvoice :=
  { payload with
    createdAt := match payload.createdAt with
      | some t => some t
      | none => old.createdAt
    updatedAt := some now }

/-- `handleSaveInvoice` (App).  Returns the state after all performed effects
and the boolean result (`true` = success reported, `false` = the catch block
ran).  Effects happen in source order: invoice write first, then (create,
sequential mode only) the local `setFirmDetails` followed by the
firm-document update, then `setCurrentInvoice`/`setEditingInvoice(null)`. -/
def handleSaveInvoice (env : StoreEnv) (st : AppState) (invoiceData : InvoiceData) :
    AppState × Bool :=
  let final := finalDataToSave invoiceData
  if strTruthy invoiceData.id then
    -- update path: `updateDoc(doc(db, 'invoices', id), { ...finalDataToSave, updatedAt })`
    match invoiceData.id with
    | some i =>
      if env.updateOk then
        ({ st with
            invoices := st.invoices.map (fun kv =>
              if kv.1 = i then (kv.1, applyInvoiceUpdate kv.2 final env.now) else kv)
            currentInvoice := some ({ invoiceData with id := some i })
            editingInvoice := none }, true)
      else (st, false)
    | none => (st, false)
  else
    -- create path: `addDoc(collection(db, 'invoices'), { ...finalDataToSave, createdAt })`
    match env.createOutcome with
    | none => (st, false)
    | some newId =>
      let st1 := { st with
        invoices := st.invoices ++ [(newId, { final with createdAt := some env.now })] }
      if isSequential st.firmDetails then
        match st.firmDetails with
        | some f =>
          let ncn := nextNum (f.invoiceFormat.getD ({} : InvoiceFormat))
          let st2 := { st1 with firmDetails := some (setCurrentNumber f ncn) }
          if env.firmUpdateOk then
            ({ st2 with
                firmStore := st2.firmStore.map (fun g => setCurrentNumber g ncn)
                currentInvoice := some ({ invoiceData with id := some newId })
                editingInvoice := none }, true)
          else (st2, false)
        | none =>
          ({ st1 with
              currentInvoice := some ({ invoiceData with id := some newId })
              editingInvoice := none }, true)
      else
        ({ st1 with
            currentInvoice := some ({ invoiceData with id := some newId })
            editingInvoice := none }, true)

/-! ## Customer list maintenance -/

/-- Customer record as loaded from the store. -/
structure Customer where
  id : String
  name : String
  phone : String := ""
  address : String := ""
  gstNumber : String := ""
  userId : String := ""
deriving Repr, DecidableEq

/-- The partial update passed to `handleUpdateCustomer` (absent fields are
left untouched by the object spread `{ ...c, ...data }`). -/
structure CustomerUpdate where
  name : Option String := none
  phone : Option String := none
  address : Option String := none
  gstNumber : Option String := none
deriving Repr, DecidableEq

/-- `{ ...c, ...data }`. -/
def applyCustomerUpdate (c : Customer) (data : CustomerUpdate) : Customer :=
  { c with
    name := data.name.getD c.name
    phone := data.phone.getD c.phone
    address := data.address.getD c.address
    gstNumber := data.gstNumber.getD c.gstNumber }

/-- The sort comparator `(a, b) => a.name.localeCompare(b.name)`, abstracted
over the collation `lc` (the integer `localeCompare` returns): `a` may come
before `b` when the comparison is non-positive. -/
def customerLe (lc : String → String → Int) (a b : Customer) : Bool :=
  lc a.name b.name ≤ 0

/-- `handleAddCustomer` success path: append the new customer and
`.sort((a, b) => a.name.localeCompare(b.name))`. -/
def handleAddCustomer (lc : String → String → Int) (prev : List Customer)
    (newCustomer : Customer) : List Customer :=
  (prev ++ [newCustomer]).mergeSort (customerLe lc)

/-- `handleUpdateCustomer` success path: map the update over the list and
re-sort by name. -/
def handleUpdateCustomer (lc : String → String → Int) (prev : List Customer)
    (id : String) (data : CustomerUpdate) : List Customer :=
  (prev.map (fun c => if c.id = id then applyCustomerUpdate c data else c)).mergeSort
    (customerLe lc)

/-- `handleDeleteCustomer` success path: `prev.filter(c => c.id !== id)`. -/
def handleDeleteCustomer (prev : List Customer) (id : String) : List Customer :=
  prev.filter (fun c => c.id ≠ id)

/-! ## Firm-setup input sanitization (FirmSetup) -/

/-- `handleDisplaySettingTextChange` on the `customInvoicePrefix` field:
`value.replace(/[^a-zA-Z0-9]/g, '').toUpperCase().substring(0, 10)`. -/
def sanitizeCustomInvoicePfx (value : String) : String :=
  String.mk (((value.toList.filter Char.isAlphanum).map Char.toUpper).take 10)

/-! ## Helper lemmas -/

theorem computeSubtotal_foldl (l : List BillItem) (a : Rat) :
    l.foldl (fun acc item => acc + item.product.price * item.quantity) a
      = a + (l.map (fun it => it.product.price * it.quantity)).sum := by
  induction l generalizing a with
  | nil => simp
  | cons x xs ih => simp [List.foldl_cons, ih]; ring

theorem computeGstAmount_foldl (GST_RATE : Rat) (l : List BillItem) (a : Rat) :
    l.foldl (fun acc item =>
        acc + (item.product.price * item.quantity) *
          ((item.gstRate.getD (GST_RATE * 100)) / 100)) a
      = a + (l.map (fun it => it.product.price * it.quantity *
          ((it.gstRate.getD (GST_RATE * 100)) / 100))).sum := by
  induction l generalizing a with
  | nil => simp
  | cons x xs ih => simp [List.foldl_cons, ih]; ring

theorem computeSubtotal_eq_sum (l : List BillItem) :
    computeSubtotal l = (l.map (fun it => it.product.price * it.quantity)).sum := by
  simpa using computeSubtotal_foldl l 0

theorem computeGstAmount_eq_sum (GST_RATE : Rat) (l : List BillItem) :
    computeGstAmount GST_RATE l
      = (l.map (fun it => it.product.price * it.quantity *
          ((it.gstRate.getD (GST_RATE * 100)) / 100))).sum := by
  simpa using computeGstAmount_foldl GST_RATE l 0

theorem handleGenerateBill_subtotal (GST_RATE : Rat) (now : Int) (userId : String)
    (editing : Option InvoiceData) (firm : Option FirmDetails) (cn cp : String)
    (items : List BillItem) (d : Int) :
    (handleGenerateBill GST_RATE now userId editing firm cn cp items d).subtotal
      = computeSubtotal items := rfl

theorem handleGenerateBill_gstAmount (GST_RATE : Rat) (now : Int) (userId : String)
    (editing : Option InvoiceData) (firm : Option FirmDetails) (cn cp : String)
    (items : List BillItem) (d : Int) :
    (handleGenerateBill GST_RATE now userId editing firm cn cp items d).gstAmount
      = computeGstAmount GST_RATE items := rfl

theorem handleGenerateBill_grandTotal (GST_RATE : Rat) (now : Int) (userId : String)
    (editing : Option InvoiceData) (firm : Option FirmDetails) (cn cp : String)
    (items : List BillItem) (d : Int) :
    (handleGenerateBill GST_RATE now userId editing firm cn cp items d).grandTotal
      = computeSubtotal items + computeGstAmount GST_RATE items := rfl

/-! ## C1 -/

/-- C1: for every list of line items the generated bill's subtotal is
`Σ price·qty`, its tax amount is `Σ price·qty·(rate/100)` with the rate the
item's own if present, else the configured global default percentage
(`GST_RATE * 100`), and its grand total is their sum; the empty list yields
zero for all three; and on the concrete two-item scenario the outputs are
250, 19 and 269. -/
theorem C1_bill_calculator :
    (∀ (GST_RATE : Rat) (now : Int) (userId : String) (editing : Option InvoiceData)
        (firm : Option FirmDetails) (cn cp : String) (items : List BillItem) (d : Int),
      (handleGenerateBill GST_RATE now userId editing firm cn cp items d).subtotal
          = (items.map (fun it => it.product.price * it.quantity)).sum
      ∧ (handleGenerateBill GST_RATE now userId editing firm cn cp items d).gstAmount
          = (items.map (fun it => it.product.price * it.quantity *
              ((it.gstRate.getD (GST_RATE * 100)) / 100))).sum
      ∧ (handleGenerateBill GST_RATE now userId editing firm cn cp items d).grandTotal
          = (handleGenerateBill GST_RATE now userId editing firm cn cp items d).subtotal
            + (handleGenerateBill GST_RATE now userId editing firm cn cp items d).gstAmount)
    ∧ (∀ (GST_RATE : Rat) (now : Int) (userId : String) (editing : Option InvoiceData)
        (firm : Option FirmDetails) (cn cp : String) (d : Int),
      (handleGenerateBill GST_RATE now userId editing firm cn cp [] d).subtotal = 0
      ∧ (handleGenerateBill GST_RATE now userId editing firm cn cp [] d).gstAmount = 0
      ∧ (handleGenerateBill GST_RATE now userId editing firm cn cp [] d).grandTotal = 0)
    ∧ (∀ (GST_RATE : Rat),
      (handleGenerateBill GST_RATE 0 "u" none none "c" "p"
          [ { product := { id := 1, name := "A", price := 100 }, quantity := 2,
              gstRate := some 5 },
            { product := { id := 2, name := "B", price := 50 }, quantity := 1,
              gstRate := some 18 } ] 0).subtotal = 250
      ∧ (handleGenerateBill GST_RATE 0 "u" none none "c" "p"
          [ { product := { id := 1, name := "A", price := 100 }, quantity := 2,
              gstRate := some 5 },
            { product := { id := 2, name := "B", price := 50 }, quantity := 1,
              gstRate := some 18 } ] 0).gstAmount = 19
      ∧ (handleGenerateBill GST_RATE 0 "u" none none "c" "p"
          [ { product := { id := 1, name := "A", price := 100 }, quantity := 2,
              gstRate := some 5 },
            { product := { id := 2, name := "B", price := 50 }, quantity := 1,
              gstRate := some 18 } ] 0).grandTotal = 269) := by
  refine ⟨?_, ?_, ?_⟩
  · intro GST_RATE now userId editing firm cn cp items d
    refine ⟨?_, ?_, ?_⟩
    · rw [handleGenerateBill_subtotal, computeSubtotal_eq_sum]
    · rw [handleGenerateBill_gstAmount, computeGstAmount_eq_sum]
    · rw [handleGenerateBill_grandTotal, handleGenerateBill_subtotal,
        handleGenerateBill_gstAmount]
  · intro GST_RATE now userId editing firm cn cp d
    refine ⟨rfl, ?_, ?_⟩
    · rw [handleGenerateBill_gstAmount]; rfl
    · rw [handleGenerateBill_grandTotal]; norm_num [computeSubtotal, computeGstAmount]
  · intro GST_RATE
    refine ⟨?_, ?_, ?_⟩
    · rw [handleGenerateBill_subtotal]; norm_num [computeSubtotal]
    · rw [handleGenerateBill_gstAmount]; norm_num [computeGstAmount]
    · rw [handleGenerateBill_grandTotal]; norm_num [computeSubtotal, computeGstAmount]

/-! ## C4 helper lemmas -/

theorem strTake_min (s : String) (n : Nat) :
    strTake s (min n s.length) = strTake s n := by
  have hlen : s.length = s.toList.length := rfl
  unfold strTake
  rw [hlen]
  rcases le_total n s.toList.length with h | h
  · rw [min_eq_left h]
  · rw [min_eq_right h, List.take_of_length_le le_rfl,
      List.take_of_length_le h]

theorem take_min_five {α : Type} (l : List α) :
    l.take (min 5 l.length) = l.take 5 := by
  rcases le_total 5 l.length with h | h
  · rw [min_eq_left h]
  · rw [min_eq_right h, List.take_of_length_le le_rfl, List.take_of_length_le h]

theorem wordsOf_ne_nil_of_eq {name : String} {ws : List String}
    (h : wordsOf name = ws) (hne : ws ≠ []) : jsTrim name ≠ "" := by
  intro htrim
  apply hne
  rw [← h]
  unfold wordsOf
  rw [htrim]
  rfl

theorem generateInvoicePrefix_one_word (name w : String)
    (h : wordsOf name = [w]) :
    generateInvoicePrefix (some name)
      = orInv (strTake (jsUpper (stripNonAlnum name)) 4) := by
  have hne := wordsOf_ne_nil_of_eq h (by simp)
  rw [← strTake_min (jsUpper (stripNonAlnum name)) 4]
  simp only [generateInvoicePrefix, h]
  rw [if_neg hne]

theorem generateInvoicePrefix_two_words (name w1 w2 : String)
    (h : wordsOf name = [w1, w2]) :
    generateInvoicePrefix (some name)
      = orInv (strTake (jsUpper (stripNonAlnum w1)) 2 ++
               strTake (jsUpper (stripNonAlnum w2)) 2) := by
  have hne := wordsOf_ne_nil_of_eq h (by simp)
  simp only [generateInvoicePrefix, h]
  rw [if_neg hne]

theorem generateInvoicePrefix_many_words (name : String) (ws : List String)
    (h : wordsOf name = ws) (h3 : 3 ≤ ws.length) :
    generateInvoicePrefix (some name)
      = orInv (jsUpper (String.mk
          ((ws.take 5).filterMap (fun w => (stripNonAlnum w).toList.head?)))) := by
  have hne : jsTrim name ≠ "" := by
    apply wordsOf_ne_nil_of_eq h
    intro hnil
    rw [hnil] at h3
    simp at h3
  rw [← take_min_five ws]
  obtain ⟨a, b, c, rest, rfl⟩ : ∃ a b c rest, ws = a :: b :: c :: rest := by
    match ws, h3 with
    | a :: b :: c :: rest, _ => exact ⟨a, b, c, rest, rfl⟩
  simp only [generateInvoicePrefix, h]
  rw [if_neg hne]

theorem newInvoiceNumber_of_not_seq (firm : Option FirmDetails) (now : Int)
    (h : isSequential firm = false) :
    newInvoiceNumber firm now = freeformInvoiceNumber firm now := by
  cases firm with
  | none => rfl
  | some f =>
    cases hf : f.invoiceFormat with
    | none => simp [newInvoiceNumber, hf]
    | some fmt =>
      rw [isSequential] at h
      rw [hf] at h
      simp only [decide_eq_false_iff_not] at h
      simp [newInvoiceNumber, hf, h]

theorem handleGenerateBill_new_number (GST_RATE : Rat) (now : Int) (userId : String)
    (firm : Option FirmDetails) (cn cp : String) (items : List BillItem) (d : Int) :
    (handleGenerateBill GST_RATE now userId none firm cn cp items d).invoiceNumber
      = newInvoiceNumber firm now := rfl

/-! ## C4 -/

/-- C4: in freeform (non-sequential) mode the invoice prefix is the custom
prefix when set (nonempty), else derived from the firm name: one word gives
the first 4 characters of the stripped-and-uppercased name, two words the
first 2 characters of each stripped-and-uppercased word, three or more words
the first letter of each of up to the first 5 words (uppercased), with `INV`
whenever the result would be empty and for a missing or blank name; the
stated examples hold; and the final number is `{prefix}-{timestamp}`. -/
theorem C4_freeform_numbering :
    (∀ (name w : String), wordsOf name = [w] →
      generateInvoicePrefix (some name)
        = orInv (strTake (jsUpper (stripNonAlnum name)) 4))
    ∧ (∀ (name w1 w2 : String), wordsOf name = [w1, w2] →
      generateInvoicePrefix (some name)
        = orInv (strTake (jsUpper (stripNonAlnum w1)) 2 ++
                 strTake (jsUpper (stripNonAlnum w2)) 2))
    ∧ (∀ (name : String) (ws : List String), wordsOf name = ws → 3 ≤ ws.length →
      generateInvoicePrefix (some name)
        = orInv (jsUpper (String.mk
            ((ws.take 5).filterMap (fun w => (stripNonAlnum w).toList.head?)))))
    ∧ (∀ (name : String), jsTrim name = "" → generateInvoicePrefix (some name) = "INV")
    ∧ generateInvoicePrefix none = "INV"
    ∧ (generateInvoicePrefix (some "Shree") = "SHRE"
       ∧ generateInvoicePrefix (some "Shree Oil") = "SHOI"
       ∧ generateInvoicePrefix (some "Shree Oil Mill") = "SOM"
       ∧ generateInvoicePrefix (some "") = "INV"
       ∧ generateInvoicePrefix (some "   ") = "INV")
    ∧ (∀ (GST_RATE : Rat) (now : Int) (userId : String) (firm : Option FirmDetails)
        (cn cp : String) (items : List BillItem) (d : Int),
      isSequential firm = false →
      (∀ (s : String), customPfx firm = some s → s ≠ "" →
        (handleGenerateBill GST_RATE now userId none firm cn cp items d).invoiceNumber
          = s ++ "-" ++ toString now)
      ∧ ((customPfx firm = none ∨ customPfx firm = some "") →
        (handleGenerateBill GST_RATE now userId none firm cn cp items d).invoiceNumber
          = generateInvoicePrefix (firm.map FirmDetails.firmName)
            ++ "-" ++ toString now)) := by
  refine ⟨generateInvoicePrefix_one_word, generateInvoicePrefix_two_words,
    generateInvoicePrefix_many_words, ?_, rfl, ?_, ?_⟩
  · intro name h
    simp [generateInvoicePrefix, h]
  · exact ⟨by decide, by decide, by decide, by decide, by decide⟩
  · intro GST_RATE now userId firm cn cp items d hseq
    rw [handleGenerateBill_new_number, newInvoiceNumber_of_not_seq firm now hseq]
    constructor
    · intro s hs hne
      rw [freeformInvoiceNumber, hs, jsOrStr]
      simp [hne]
    · intro hcase
      rcases hcase with hc | hc
      · rw [freeformInvoiceNumber, hc, jsOrStr]
      · rw [freeformInvoiceNumber, hc, jsOrStr]
        simp

/-- C4 witness: the clause instantiations at concrete inputs. -/
theorem C4_freeform_numbering_witness :
    generateInvoicePrefix (some "Shree")
      = orInv (strTake (jsUpper (stripNonAlnum "Shree")) 4)
    ∧ generateInvoicePrefix (some "Shree Oil")
      = orInv (strTake (jsUpper (stripNonAlnum "Shree")) 2 ++
               strTake (jsUpper (stripNonAlnum "Oil")) 2)
    ∧ generateInvoicePrefix (some "Shree Oil Mill")
      = orInv (jsUpper (String.mk
          ((["Shree", "Oil", "Mill"].take 5).filterMap
            (fun w => (stripNonAlnum w).toList.head?))))
    ∧ generateInvoicePrefix (some "   ") = "INV"
    ∧ (handleGenerateBill 0 7 "u" none
        (some { firmName := "X",
                displaySettings := some { customInvoicePrefix := some "CUSTOM" },
                invoiceFormat := none })
        "c" "p" [] 0).invoiceNumber = "CUSTOM" ++ "-" ++ toString (7 : Int)
    ∧ (handleGenerateBill 0 7 "u" none
        (some { firmName := "Shree Oil", displaySettings := none,
                invoiceFormat := none })
        "c" "p" [] 0).invoiceNumber
      = generateInvoicePrefix
          ((some { firmName := "Shree Oil", displaySettings := none,
                   invoiceFormat := none } : Option FirmDetails).map
            FirmDetails.firmName)
        ++ "-" ++ toString (7 : Int) := by
  obtain ⟨h1, h2, h3, h4, _h5, _hex, h7⟩ := C4_freeform_numbering
  refine ⟨h1 "Shree" "Shree" (by decide),
    h2 "Shree Oil" "Shree" "Oil" (by decide),
    h3 "Shree Oil Mill" ["Shree", "Oil", "Mill"] (by decide) (by decide),
    h4 "   " (by decide), ?_, ?_⟩
  · exact (h7 0 7 "u"
      (some { firmName := "X",
              displaySettings := some { customInvoicePrefix := some "CUSTOM" },
              invoiceFormat := none })
      "c" "p" [] 0 (by decide)).1 "CUSTOM" rfl (by decide)
  · exact (h7 0 7 "u"
      (some { firmName := "Shree Oil", displaySettings := none,
              invoiceFormat := none })
      "c" "p" [] 0 (by decide)).2 (Or.inl rfl)

/-! ## C2 -/

/-- Modelled from the claim text only, for comparison with the code:
`next = (currentNumber ?? (startNumber - 1)) + 1`. -/
def claimSeqNext (currentNumber : Option Int) (startNumber : Int) : Int :=
  (currentNumber.getD (startNumber - 1)) + 1

/-- Amended claim formula: the fallback start is `startNumber` when present
and nonzero, else 1 (the JS `startNumber || 1` treats 0 and absent alike). -/
def claimSeqNextAmended (currentNumber startNumber : Option Int) : Int :=
  (currentNumber.getD ((match startNumber with
    | some s => if s = 0 then 1 else s
    | none => 1) - 1)) + 1

/-- Concrete fixture: a sequential firm whose numbering has `startNumber = 0`
and no `currentNumber` yet. -/
def firmSeqStart0 : FirmDetails :=
  { firmName := "F", displaySettings := none,
    invoiceFormat := some { type := some "sequential", startNumber := some 0, currentNumber := none } }

/-- C2 counterexample: a sequential firm with `startNumber = 0` and no
`currentNumber` generates invoice number `"1"` (JS `startNumber || 1` treats
0 as falsy), while the claim's formula `(currentNumber ?? (startNumber - 1))
+ 1` yields 0, so the claim fails at `startNumber = 0`. -/
theorem C2_counterexample_startNumber_zero :
    (handleGenerateBill 0 0 "u" none (some firmSeqStart0)
        "c" "p" [] 0).invoiceNumber = "1"
    ∧ claimSeqNext none 0 = 0
    ∧ (handleGenerateBill 0 0 "u" none (some firmSeqStart0)
        "c" "p" [] 0).invoiceNumber ≠ toString (claimSeqNext none 0) := by
  refine ⟨by decide, by decide, by decide⟩

/-- C2 (amended): for every new invoice under sequential numbering the
generated number is `(currentNumber ?? (fallbackStart - 1)) + 1`, where
`fallbackStart` is `startNumber` when present and nonzero and 1 when absent
or zero, rendered `{prefix}-{next}` with a configured nonempty custom prefix
and as the bare number otherwise. -/
theorem C2_sequential_numbering (GST_RATE : Rat) (now : Int) (userId : String)
    (f : FirmDetails) (fmt : InvoiceFormat) (cn cp : String)
    (items : List BillItem) (d : Int)
    (hf : f.invoiceFormat = some fmt) (ht : fmt.type = some "sequential") :
    (handleGenerateBill GST_RATE now userId none (some f) cn cp items d).invoiceNumber
      = seqNumberString (f.displaySettings.bind (fun ds => ds.customInvoicePrefix))
          (claimSeqNextAmended fmt.currentNumber fmt.startNumber) := by
  have hnum : nextNum fmt = claimSeqNextAmended fmt.currentNumber fmt.startNumber := by
    unfold nextNum claimSeqNextAmended startOr1
    cases fmt.currentNumber with
    | none =>
      cases fmt.startNumber with
      | none => rfl
      | some s => rfl
    | some c => rfl
  rw [handleGenerateBill_new_number]
  simp [newInvoiceNumber, hf, ht, seqInvoiceNumber, hnum]

/-- Concrete fixture: sequential numbering at `currentNumber = 5`, `startNumber = 3`. -/
def fmtSeq35 : InvoiceFormat :=
  { type := some "sequential", startNumber := some 3, currentNumber := some 5 }

/-- Concrete fixture: a sequential firm with custom prefix `INV`. -/
def firmSeqCustom : FirmDetails :=
  { firmName := "F",
    displaySettings := some { customInvoicePrefix := some "INV" },
    invoiceFormat := some fmtSeq35 }

/-- C2 witness: the amended sequential formula at a concrete firm. -/
theorem C2_sequential_numbering_witness :
    (handleGenerateBill 0 0 "u" none (some firmSeqCustom) "c" "p" [] 0).invoiceNumber
      = seqNumberString (some "INV") (claimSeqNextAmended (some 5) (some 3)) :=
  C2_sequential_numbering 0 0 "u" firmSeqCustom fmtSeq35 "c" "p" [] 0 rfl rfl

/-! ## Save-path unfolding lemmas -/

theorem handleSaveInvoice_update (env : StoreEnv) (st : AppState)
    (inv : InvoiceData) (i : String)
    (hid : inv.id = some i) (hne : i ≠ "") (hupd : env.updateOk = true) :
    handleSaveInvoice env st inv =
      ({ st with
          invoices := st.invoices.map (fun kv =>
            if kv.1 = i then (kv.1, applyInvoiceUpdate kv.2 (finalDataToSave inv) env.now)
            else kv)
          currentInvoice := some ({ inv with id := some i })
          editingInvoice := none }, true) := by
  unfold handleSaveInvoice
  rw [hid]
  simp [strTruthy, hne, hupd]

theorem handleSaveInvoice_create_fail (env : StoreEnv) (st : AppState)
    (inv : InvoiceData) (hid : inv.id = none) (hc : env.createOutcome = none) :
    handleSaveInvoice env st inv = (st, false) := by
  unfold handleSaveInvoice
  rw [hid, hc]
  simp [strTruthy]

theorem handleSaveInvoice_create_seq_ok (env : StoreEnv) (st : AppState)
    (inv : InvoiceData) (f : FirmDetails) (fmt : InvoiceFormat) (nid : String)
    (hid : inv.id = none) (hc : env.createOutcome = some nid)
    (hfd : st.firmDetails = some f) (hf : f.invoiceFormat = some fmt)
    (ht : fmt.type = some "sequential") (hok : env.firmUpdateOk = true) :
    handleSaveInvoice env st inv =
      ({ st with
          invoices := st.invoices ++
            [(nid, { finalDataToSave inv with createdAt := some env.now })]
          firmDetails := some (setCurrentNumber f (nextNum fmt))
          firmStore := st.firmStore.map (fun g => setCurrentNumber g (nextNum fmt))
          currentInvoice := some ({ inv with id := some nid })
          editingInvoice := none }, true) := by
  unfold handleSaveInvoice
  rw [hid, hc]
  simp [strTruthy, isSequential, hfd, hf, ht, hok]

theorem handleSaveInvoice_create_seq_firmfail (env : StoreEnv) (st : AppState)
    (inv : InvoiceData) (f : FirmDetails) (fmt : InvoiceFormat) (nid : String)
    (hid : inv.id = none) (hc : env.createOutcome = some nid)
    (hfd : st.firmDetails = some f) (hf : f.invoiceFormat = some fmt)
    (ht : fmt.type = some "sequential") (hok : env.firmUpdateOk = false) :
    handleSaveInvoice env st inv =
      ({ st with
          invoices := st.invoices ++
            [(nid, { finalDataToSave inv with createdAt := some env.now })]
          firmDetails := some (setCurrentNumber f (nextNum fmt)) }, false) := by
  unfold handleSaveInvoice
  rw [hid, hc]
  simp [strTruthy, isSequential, hfd, hf, ht, hok]

theorem handleSaveInvoice_create_nonseq_ok (env : StoreEnv) (st : AppState)
    (inv : InvoiceData) (nid : String)
    (hid : inv.id = none) (hc : env.createOutcome = some nid)
    (hseq : isSequential st.firmDetails = false) :
    handleSaveInvoice env st inv =
      ({ st with
          invoices := st.invoices ++
            [(nid, { finalDataToSave inv with createdAt := some env.now })]
          currentInvoice := some ({ inv with id := some nid })
          editingInvoice := none }, true) := by
  unfold handleSaveInvoice
  rw [hid, hc]
  simp [strTruthy, hseq]

/-! ## C3 -/

/-- C3: generating a bill while editing an existing invoice (one whose
`id` is a store-assigned, hence nonempty, document id) returns its stored
`invoiceNumber` verbatim and keeps its `id`, regardless of the firm and its
numbering mode; resaving updates the record under the same key in place
(all other records and all keys unchanged), the updated record keeps the
same `invoiceNumber`, and the save reports success with the same `id`. -/
theorem C3_edit_preserves_number_and_id (GST_RATE : Rat) (now : Int)
    (userId : String) (e : InvoiceData) (i : String) (firm : Option FirmDetails)
    (cn cp : String) (items : List BillItem) (d : Int)
    (env : StoreEnv) (st : AppState)
    (hid : e.id = some i) (hne : i ≠ "") (hupd : env.updateOk = true) :
    (handleGenerateBill GST_RATE now userId (some e) firm cn cp items d).invoiceNumber
      = e.invoiceNumber
    ∧ (handleGenerateBill GST_RATE now userId (some e) firm cn cp items d).id = some i
    ∧ (handleSaveInvoice env st
        (handleGenerateBill GST_RATE now userId (some e) firm cn cp items d)).2 = true
    ∧ (handleSaveInvoice env st
        (handleGenerateBill GST_RATE now userId (some e) firm cn cp items d)).1.invoices.map
          Prod.fst = st.invoices.map Prod.fst
    ∧ (∀ kv ∈ st.invoices, kv.1 ≠ i →
        kv ∈ (handleSaveInvoice env st
          (handleGenerateBill GST_RATE now userId (some e) firm cn cp items d)).1.invoices)
    ∧ (∀ kv ∈ (handleSaveInvoice env st
          (handleGenerateBill GST_RATE now userId (some e) firm cn cp items d)).1.invoices,
        kv.1 = i → kv.2.invoiceNumber = e.invoiceNumber)
    ∧ (handleSaveInvoice env st
        (handleGenerateBill GST_RATE now userId (some e) firm cn cp items d)).1.currentInvoice
      = some (handleGenerateBill GST_RATE now userId (some e) firm cn cp items d) := by
  set g := handleGenerateBill GST_RATE now userId (some e) firm cn cp items d with hg
  have hnumber : g.invoiceNumber = e.invoiceNumber := rfl
  have hgid : g.id = some i := by
    rw [hg]
    show (if strTruthy e.id then e.id else none) = some i
    rw [hid]
    simp [strTruthy, hne]
  have hsave := handleSaveInvoice_update env st g i hgid hne hupd
  refine ⟨hnumber, hgid, ?_, ?_, ?_, ?_, ?_⟩
  · rw [hsave]
  · rw [hsave]
    simp only [List.map_map]
    apply List.map_congr_left
    intro kv _
    by_cases hk : kv.1 = i
    · simp [hk]
    · simp [hk]
  · intro kv hkv hk
    rw [hsave]
    simp only []
    have : (if kv.1 = i then (kv.1, applyInvoiceUpdate kv.2 (finalDataToSave g) env.now)
        else kv) = kv := by
      rw [if_neg hk]
    rw [← this]
    exact List.mem_map_of_mem _ hkv
  · intro kv hkv hk
    rw [hsave] at hkv
    simp only [List.mem_map] at hkv
    obtain ⟨kv0, hkv0, hkv0eq⟩ := hkv
    by_cases hk0 : kv0.1 = i
    · rw [if_pos hk0] at hkv0eq
      rw [← hkv0eq]
      exact hnumber
    · rw [if_neg hk0] at hkv0eq
      rw [← hkv0eq] at hk
      exact absurd hk hk0
  · rw [hsave]
    simp only []
    congr 1
    rw [← hgid]

/-- Concrete fixture: an already-persisted invoice being edited. -/
def invE0 : InvoiceData :=
  { id := some "doc1", invoiceNumber := "N-1", date := 0, customerName := "c",
    customerPhone := "p", items := [], subtotal := 0, gstAmount := 0,
    grandTotal := 0, userId := "u" }

/-- C3 witness: the edit-and-resave frame property at a concrete invoice. -/
theorem C3_edit_preserves_number_and_id_witness :
    (handleGenerateBill 0 0 "u" (some invE0) none "c" "p" [] 0).invoiceNumber
      = invE0.invoiceNumber
    ∧ (handleGenerateBill 0 0 "u" (some invE0) none "c" "p" [] 0).id = some "doc1"
    ∧ (handleSaveInvoice {} {}
        (handleGenerateBill 0 0 "u" (some invE0) none "c" "p" [] 0)).2 = true
    ∧ (handleSaveInvoice {} {}
        (handleGenerateBill 0 0 "u" (some invE0) none "c" "p" [] 0)).1.invoices.map
          Prod.fst = (({} : AppState)).invoices.map Prod.fst
    ∧ (∀ kv ∈ (({} : AppState)).invoices, kv.1 ≠ "doc1" →
        kv ∈ (handleSaveInvoice {} {}
          (handleGenerateBill 0 0 "u" (some invE0) none "c" "p" [] 0)).1.invoices)
    ∧ (∀ kv ∈ (handleSaveInvoice {} {}
          (handleGenerateBill 0 0 "u" (some invE0) none "c" "p" [] 0)).1.invoices,
        kv.1 = "doc1" → kv.2.invoiceNumber = invE0.invoiceNumber)
    ∧ (handleSaveInvoice {} {}
        (handleGenerateBill 0 0 "u" (some invE0) none "c" "p" [] 0)).1.currentInvoice
      = some (handleGenerateBill 0 0 "u" (some invE0) none "c" "p" [] 0) :=
  C3_edit_preserves_number_and_id 0 0 "u" invE0 "doc1" none "c" "p" [] 0 {} {}
    rfl (by decide) rfl

/-! ## C6 -/

/-- C6: when the store's create call fails while saving a new invoice, the
save reports failure and leaves everything unchanged: no invoice id is
assigned (the current invoice is untouched), the invoices collection, the
local firm state and the stored firm record are all exactly as before. -/
theorem C6_create_failure_no_partial_commit (env : StoreEnv) (st : AppState)
    (inv : InvoiceData) (hid : inv.id = none) (hc : env.createOutcome = none) :
    (handleSaveInvoice env st inv).2 = false
    ∧ (handleSaveInvoice env st inv).1 = st
    ∧ (handleSaveInvoice env st inv).1.currentInvoice = st.currentInvoice
    ∧ (handleSaveInvoice env st inv).1.firmDetails = st.firmDetails
    ∧ (handleSaveInvoice env st inv).1.firmStore = st.firmStore
    ∧ (handleSaveInvoice env st inv).1.invoices = st.invoices := by
  have h := handleSaveInvoice_create_fail env st inv hid hc
  rw [h]
  exact ⟨rfl, rfl, rfl, rfl, rfl, rfl⟩

/-- Concrete fixture: a fresh (unsaved) invoice preview. -/
def invNew0 : InvoiceData :=
  { id := none, invoiceNumber := "1", date := 0, customerName := "c",
    customerPhone := "p", items := [], subtotal := 0, gstAmount := 0,
    grandTotal := 0, userId := "u" }

/-- Concrete fixture: a sequential firm with `startNumber = 1`, no counter yet. -/
def firmSeqPlain : FirmDetails :=
  { firmName := "F", displaySettings := none,
    invoiceFormat := some { type := some "sequential", startNumber := some 1, currentNumber := none } }

/-- Concrete fixture: state holding that firm locally and in the store. -/
def stSeq0 : AppState :=
  { firmDetails := some firmSeqPlain, firmStore := some firmSeqPlain }

/-- C6 witness: a failing create at a concrete state changes nothing. -/
theorem C6_create_failure_no_partial_commit_witness :
    (handleSaveInvoice {} stSeq0 invNew0).2 = false
    ∧ (handleSaveInvoice {} stSeq0 invNew0).1 = stSeq0
    ∧ (handleSaveInvoice {} stSeq0 invNew0).1.currentInvoice = stSeq0.currentInvoice
    ∧ (handleSaveInvoice {} stSeq0 invNew0).1.firmDetails = stSeq0.firmDetails
    ∧ (handleSaveInvoice {} stSeq0 invNew0).1.firmStore = stSeq0.firmStore
    ∧ (handleSaveInvoice {} stSeq0 invNew0).1.invoices = stSeq0.invoices :=
  C6_create_failure_no_partial_commit {} stSeq0 invNew0 rfl rfl

/-! ## C7 -/

/-- Concrete fixture: the invoice write succeeds (id `NEW1`) but the
firm-counter update fails. -/
def envCounterFail : StoreEnv :=
  { createOutcome := some "NEW1", updateOk := true, firmUpdateOk := false }

/-- C7 counterexample: with the invoice record write succeeding (the record
with id `NEW1` is in the store afterwards) and only the firm-counter update
failing, `handleSaveInvoice` reports failure (`false`, the catch branch and
its save-failure alert), not success — both store calls sit in one
`try`/`catch`, so the counter failure is not downgraded to a warning. -/
theorem C7_counterexample_counter_failure_reports_failure :
    (handleSaveInvoice envCounterFail stSeq0 invNew0).1.invoices.map Prod.fst = ["NEW1"]
    ∧ (handleSaveInvoice envCounterFail stSeq0 invNew0).2 = false := by
  refine ⟨by decide, by decide⟩

/-- C7 (amended): when the invoice write succeeds but the sequential
firm-counter update fails, the save reports failure to the caller even
though the invoice record stays persisted under its assigned id; the local
firm counter has already advanced, while the stored firm record and the
caller's current invoice (so also the preview's missing id) are unchanged. -/
theorem C7_counter_update_failure_behavior (env : StoreEnv) (st : AppState)
    (inv : InvoiceData) (f : FirmDetails) (fmt : InvoiceFormat) (nid : String)
    (hid : inv.id = none) (hc : env.createOutcome = some nid)
    (hfd : st.firmDetails = some f) (hf : f.invoiceFormat = some fmt)
    (ht : fmt.type = some "sequential") (hok : env.firmUpdateOk = false) :
    (handleSaveInvoice env st inv).2 = false
    ∧ (handleSaveInvoice env st inv).1.invoices
        = st.invoices ++ [(nid, { finalDataToSave inv with createdAt := some env.now })]
    ∧ (handleSaveInvoice env st inv).1.firmDetails
        = some (setCurrentNumber f (nextNum fmt))
    ∧ (handleSaveInvoice env st inv).1.firmStore = st.firmStore
    ∧ (handleSaveInvoice env st inv).1.currentInvoice = st.currentInvoice := by
  have h := handleSaveInvoice_create_seq_firmfail env st inv f fmt nid hid hc hfd hf ht hok
  rw [h]
  exact ⟨rfl, rfl, rfl, rfl, rfl⟩

/-- C7 witness: the amended behavior at the concrete fixtures. -/
theorem C7_counter_update_failure_behavior_witness :
    (handleSaveInvoice envCounterFail stSeq0 invNew0).2 = false
    ∧ (handleSaveInvoice envCounterFail stSeq0 invNew0).1.invoices
        = stSeq0.invoices ++
          [("NEW1", { finalDataToSave invNew0 with createdAt := some envCounterFail.now })]
    ∧ (handleSaveInvoice envCounterFail stSeq0 invNew0).1.firmDetails
        = some (setCurrentNumber firmSeqPlain
            (nextNum { type := some "sequential", startNumber := some 1, currentNumber := none }))
    ∧ (handleSaveInvoice envCounterFail stSeq0 invNew0).1.firmStore = stSeq0.firmStore
    ∧ (handleSaveInvoice envCounterFail stSeq0 invNew0).1.currentInvoice
        = stSeq0.currentInvoice :=
  C7_counter_update_failure_behavior envCounterFail stSeq0 invNew0 firmSeqPlain
    { type := some "sequential", startNumber := some 1, currentNumber := none }
    "NEW1" rfl rfl rfl rfl rfl rfl

/-! ## C5: iterated creates -/

/-- One user round trip that cannot fail: generate a new bill from the
current state (no invoice being edited) and save it, with the store
assigning id `nid` and every store call succeeding.  Returns the new state
and the invoice number that was assigned. -/
def createNewBillOk (GST_RATE : Rat) (now : Int) (userId cn cp : String)
    (items : List BillItem) (billDate : Int) (nid : String) (st : AppState) :
    AppState × String :=
  let inv := handleGenerateBill GST_RATE now userId st.editingInvoice st.firmDetails
    cn cp items billDate
  let res := handleSaveInvoice
    { createOutcome := some nid, updateOk := true, firmUpdateOk := true, now := now }
    { st with currentInvoice := some inv } inv
  (res.1, inv.invoiceNumber)

/-- `N` consecutive successful new-invoice saves, the `j`-th one getting the
store id `ids (k + j)`.  Returns the final state and the assigned invoice
numbers in save order. -/
def runCreates (GST_RATE : Rat) (now : Int) (userId cn cp : String)
    (items : List BillItem) (billDate : Int) (ids : Nat → String) :
    Nat → Nat → AppState → AppState × List String
  | _k, 0, st => (st, [])
  | k, n + 1, st =>
    let step := createNewBillOk GST_RATE now userId cn cp items billDate (ids k) st
    let rest := runCreates GST_RATE now userId cn cp items billDate ids (k + 1) n step.1
    (rest.1, step.2 :: rest.2)

theorem setCurrentNumber_invoiceFormat (f : FirmDetails) (fmt : InvoiceFormat)
    (n : Int) (hf : f.invoiceFormat = some fmt) :
    (setCurrentNumber f n).invoiceFormat
      = some { fmt with currentNumber := some n } := by
  simp [setCurrentNumber, hf]

theorem setCurrentNumber_displaySettings (f : FirmDetails) (n : Int) :
    (setCurrentNumber f n).displaySettings = f.displaySettings := rfl

theorem nextNum_after_set (fmt : InvoiceFormat) (n : Int) :
    nextNum { fmt with currentNumber := some n } = n + 1 := rfl

theorem setCurrentNumber_setCurrentNumber (g : FirmDetails) (a b : Int) :
    setCurrentNumber (setCurrentNumber g a) b = setCurrentNumber g b := by
  cases hg : g.invoiceFormat with
  | none => simp [setCurrentNumber, hg]
  | some fmt => simp [setCurrentNumber, hg]

theorem createNewBillOk_seq (GST_RATE : Rat) (now : Int) (userId cn cp : String)
    (items : List BillItem) (billDate : Int) (nid : String) (st : AppState)
    (f : FirmDetails) (fmt : InvoiceFormat)
    (hfd : st.firmDetails = some f) (hf : f.invoiceFormat = some fmt)
    (ht : fmt.type = some "sequential") (hed : st.editingInvoice = none) :
    (createNewBillOk GST_RATE now userId cn cp items billDate nid st).2
      = seqNumberString (f.displaySettings.bind (fun ds => ds.customInvoicePrefix))
          (nextNum fmt)
    ∧ (createNewBillOk GST_RATE now userId cn cp items billDate nid st).1.firmDetails
      = some (setCurrentNumber f (nextNum fmt))
    ∧ (createNewBillOk GST_RATE now userId cn cp items billDate nid st).1.firmStore
      = st.firmStore.map (fun g => setCurrentNumber g (nextNum fmt))
    ∧ (createNewBillOk GST_RATE now userId cn cp items billDate nid st).1.editingInvoice
      = none := by
  have hinv_id : (handleGenerateBill GST_RATE now userId st.editingInvoice
      st.firmDetails cn cp items billDate).id = none := by
    rw [hed]
    rfl
  have hinv_num : (handleGenerateBill GST_RATE now userId st.editingInvoice
      st.firmDetails cn cp items billDate).invoiceNumber
        = seqNumberString (f.displaySettings.bind (fun ds => ds.customInvoicePrefix))
            (nextNum fmt) := by
    rw [hed, handleGenerateBill_new_number, hfd]
    simp [newInvoiceNumber, hf, ht, seqInvoiceNumber]
  have hsave := handleSaveInvoice_create_seq_ok
    { createOutcome := some nid, updateOk := true, firmUpdateOk := true, now := now }
    { st with currentInvoice := some (handleGenerateBill GST_RATE now userId
        st.editingInvoice st.firmDetails cn cp items billDate) }
    (handleGenerateBill GST_RATE now userId st.editingInvoice st.firmDetails
      cn cp items billDate)
    f fmt nid hinv_id rfl hfd hf ht rfl
  simp only [createNewBillOk]
  rw [hsave]
  exact ⟨hinv_num, rfl, rfl, rfl⟩

theorem runCreates_seq (GST_RATE : Rat) (now : Int) (userId cn cp : String)
    (items : List BillItem) (billDate : Int) (ids : Nat → String) :
    ∀ (N k : Nat) (st : AppState) (f : FirmDetails) (fmt : InvoiceFormat),
      st.firmDetails = some f → f.invoiceFormat = some fmt →
      fmt.type = some "sequential" → st.editingInvoice = none →
      (runCreates GST_RATE now userId cn cp items billDate ids k N st).2
        = (List.range N).map (fun (j : Nat) =>
            seqNumberString (f.displaySettings.bind (fun ds => ds.customInvoicePrefix))
              (nextNum fmt + (j : Int)))
      ∧ (runCreates GST_RATE now userId cn cp items billDate ids k N st).1.firmDetails
        = (if N = 0 then some f
           else some (setCurrentNumber f (nextNum fmt + N - 1)))
      ∧ (runCreates GST_RATE now userId cn cp items billDate ids k N st).1.firmStore
        = (if N = 0 then st.firmStore
           else st.firmStore.map (fun g => setCurrentNumber g (nextNum fmt + N - 1)))
      ∧ (runCreates GST_RATE now userId cn cp items billDate ids k N st).1.editingInvoice
        = none := by
  intro N
  induction N with
  | zero =>
    intro k st f fmt hfd hf ht hed
    refine ⟨rfl, ?_, ?_, ?_⟩
    · simpa [runCreates] using hfd
    · simp [runCreates]
    · simpa [runCreates] using hed
  | succ n ih =>
    intro k st f fmt hfd hf ht hed
    obtain ⟨hs2, hsfd, hsfs, hsed⟩ := createNewBillOk_seq GST_RATE now userId cn cp
      items billDate (ids k) st f fmt hfd hf ht hed
    have hf2 : (setCurrentNumber f (nextNum fmt)).invoiceFormat
        = some { fmt with currentNumber := some (nextNum fmt) } :=
      setCurrentNumber_invoiceFormat f fmt _ hf
    have ht2 : ({ fmt with currentNumber := some (nextNum fmt) } : InvoiceFormat).type
        = some "sequential" := ht
    obtain ⟨ihn, ihfd, ihfs, ihed⟩ := ih (k + 1)
      ((createNewBillOk GST_RATE now userId cn cp items billDate (ids k) st).1)
      (setCurrentNumber f (nextNum fmt))
      { fmt with currentNumber := some (nextNum fmt) }
      hsfd hf2 ht2 hsed
    refine ⟨?_, ?_, ?_, ?_⟩
    · show (createNewBillOk GST_RATE now userId cn cp items billDate (ids k) st).2
        :: (runCreates GST_RATE now userId cn cp items billDate ids (k + 1) n
            (createNewBillOk GST_RATE now userId cn cp items billDate (ids k) st).1).2
        = _
      rw [hs2, ihn, List.range_succ_eq_map, List.map_cons, List.map_map]
      congr 1
      · simp
      · apply List.map_congr_left
        intro j _
        rw [setCurrentNumber_displaySettings, nextNum_after_set]
        congr 1
        push_cast
        ring
    · show (runCreates GST_RATE now userId cn cp items billDate ids (k + 1) n
            (createNewBillOk GST_RATE now userId cn cp items billDate (ids k) st).1).1.firmDetails
        = _
      rw [ihfd, if_neg (Nat.succ_ne_zero n)]
      rcases Nat.eq_zero_or_pos n with hn | hn
      · subst hn
        rw [if_pos rfl]
        congr 2
        push_cast
        ring
      · rw [if_neg (Nat.pos_iff_ne_zero.mp hn), nextNum_after_set,
          setCurrentNumber_setCurrentNumber]
        congr 2
        push_cast
        ring
    · show (runCreates GST_RATE now userId cn cp items billDate ids (k + 1) n
            (createNewBillOk GST_RATE now userId cn cp items billDate (ids k) st).1).1.firmStore
        = _
      rw [ihfs, if_neg (Nat.succ_ne_zero n)]
      rcases Nat.eq_zero_or_pos n with hn | hn
      · subst hn
        rw [if_pos rfl, hsfs]
        congr 1
        funext g
        congr 1
        push_cast
        ring
      · rw [if_neg (Nat.pos_iff_ne_zero.mp hn), hsfs, nextNum_after_set, Option.map_map]
        congr 1
        funext g
        simp only [Function.comp]
        rw [setCurrentNumber_setCurrentNumber]
        congr 1
        push_cast
        ring
    · exact ihed

/-- The `currentNumber` stored in an optional firm record. -/
def firmCounter (firm : Option FirmDetails) : Option Int :=
  firm.bind (fun f => f.invoiceFormat.bind (fun fmt => fmt.currentNumber))

theorem firmCounter_setCurrentNumber (f : FirmDetails) (n : Int) :
    firmCounter (some (setCurrentNumber f n)) = some n := by
  simp [firmCounter, setCurrentNumber]

theorem handleSaveInvoice_edit_firm_untouched (env : StoreEnv) (st : AppState)
    (inv : InvoiceData) (i : String) (hid : inv.id = some i) (hne : i ≠ "") :
    (handleSaveInvoice env st inv).1.firmDetails = st.firmDetails
    ∧ (handleSaveInvoice env st inv).1.firmStore = st.firmStore := by
  by_cases hu : env.updateOk
  · rw [handleSaveInvoice_update env st inv i hid hne hu]
    exact ⟨rfl, rfl⟩
  · unfold handleSaveInvoice
    rw [hid]
    simp [strTruthy, hne, hu]

/-! ## C5 -/

/-- C5: the firm counter advances only on a successfully persisted new
invoice and never on an edit.  (i) Saving an invoice that has a (nonempty)
id leaves the local firm state and the stored firm record untouched,
whether or not the store call succeeds.  (ii) A successful create in
sequential mode sets the counter (locally, and in the stored firm record
when one exists) exactly to the number just consumed by the generated
invoice number, which is `currentNumber + 1` whenever a counter was present.
(iii) N consecutive successful creates assign the consecutive numbers
`first, first+1, …, first+N-1` in save order and leave the counter at
`first + N - 1`, i.e. increased by exactly `N` over a present counter. -/
theorem C5_counter_advances_only_on_create :
    (∀ (env : StoreEnv) (st : AppState) (inv : InvoiceData) (i : String),
      inv.id = some i → i ≠ "" →
      (handleSaveInvoice env st inv).1.firmDetails = st.firmDetails
      ∧ (handleSaveInvoice env st inv).1.firmStore = st.firmStore)
    ∧ (∀ (GST_RATE : Rat) (now : Int) (userId cn cp : String)
        (items : List BillItem) (billDate : Int) (nid : String) (st : AppState)
        (f : FirmDetails) (fmt : InvoiceFormat),
      st.firmDetails = some f → f.invoiceFormat = some fmt →
      fmt.type = some "sequential" → st.editingInvoice = none →
      (createNewBillOk GST_RATE now userId cn cp items billDate nid st).2
        = seqNumberString (f.displaySettings.bind (fun ds => ds.customInvoicePrefix))
            (nextNum fmt)
      ∧ firmCounter
          (createNewBillOk GST_RATE now userId cn cp items billDate nid st).1.firmDetails
        = some (nextNum fmt)
      ∧ (∀ (g : FirmDetails), st.firmStore = some g →
          firmCounter
            (createNewBillOk GST_RATE now userId cn cp items billDate nid st).1.firmStore
          = some (nextNum fmt))
      ∧ (∀ (c : Int), fmt.currentNumber = some c → nextNum fmt = c + 1))
    ∧ (∀ (GST_RATE : Rat) (now : Int) (userId cn cp : String)
        (items : List BillItem) (billDate : Int) (ids : Nat → String)
        (N k : Nat) (st : AppState) (f : FirmDetails) (fmt : InvoiceFormat),
      st.firmDetails = some f → f.invoiceFormat = some fmt →
      fmt.type = some "sequential" → st.editingInvoice = none →
      (runCreates GST_RATE now userId cn cp items billDate ids k N st).2
        = (List.range N).map (fun (j : Nat) =>
            seqNumberString (f.displaySettings.bind (fun ds => ds.customInvoicePrefix))
              (nextNum fmt + (j : Int)))
      ∧ (1 ≤ N →
          firmCounter
            (runCreates GST_RATE now userId cn cp items billDate ids k N st).1.firmDetails
          = some (nextNum fmt + N - 1))
      ∧ (∀ (g : FirmDetails), st.firmStore = some g → 1 ≤ N →
          firmCounter
            (runCreates GST_RATE now userId cn cp items billDate ids k N st).1.firmStore
          = some (nextNum fmt + N - 1))
      ∧ (∀ (c : Int), fmt.currentNumber = some c →
          firmCounter
            (runCreates GST_RATE now userId cn cp items billDate ids k N st).1.firmDetails
          = some (c + N))) := by
  refine ⟨handleSaveInvoice_edit_firm_untouched, ?_, ?_⟩
  · intro GST_RATE now userId cn cp items billDate nid st f fmt hfd hf ht hed
    obtain ⟨hs2, hsfd, hsfs, _hsed⟩ := createNewBillOk_seq GST_RATE now userId cn cp
      items billDate nid st f fmt hfd hf ht hed
    refine ⟨hs2, ?_, ?_, ?_⟩
    · rw [hsfd, firmCounter_setCurrentNumber]
    · intro g hg
      rw [hsfs, hg]
      exact firmCounter_setCurrentNumber g (nextNum fmt)
    · intro c hc
      unfold nextNum
      rw [hc]
  · intro GST_RATE now userId cn cp items billDate ids N k st f fmt hfd hf ht hed
    obtain ⟨hnums, hfdN, hfsN, _hedN⟩ := runCreates_seq GST_RATE now userId cn cp
      items billDate ids N k st f fmt hfd hf ht hed
    refine ⟨hnums, ?_, ?_, ?_⟩
    · intro hN
      rw [hfdN, if_neg (by omega : ¬ N = 0), firmCounter_setCurrentNumber]
    · intro g hg hN
      rw [hfsN, if_neg (by omega : ¬ N = 0), hg]
      exact firmCounter_setCurrentNumber g (nextNum fmt + N - 1)
    · intro c hc
      rcases Nat.eq_zero_or_pos N with hN | hN
      · subst hN
        rw [hfdN, if_pos rfl]
        simp [firmCounter, hf, hc]
      · rw [hfdN, if_neg (by omega : ¬ N = 0), firmCounter_setCurrentNumber]
        have hstep : nextNum fmt = c + 1 := by
          unfold nextNum
          rw [hc]
        rw [hstep]
        congr 1
        ring

/-- Concrete fixture: the numbering configuration of `firmSeqPlain`. -/
def fmtStart1 : InvoiceFormat :=
  { type := some "sequential", startNumber := some 1, currentNumber := none }

/-- C5 witness: the three clauses at concrete inputs (an edit-save, one
successful create, and a run of two successful creates). -/
theorem C5_counter_advances_only_on_create_witness :
    ((handleSaveInvoice {} {} invE0).1.firmDetails = (({} : AppState)).firmDetails
      ∧ (handleSaveInvoice {} {} invE0).1.firmStore = (({} : AppState)).firmStore)
    ∧ ((createNewBillOk 0 0 "u" "c" "p" [] 0 "NEW1" stSeq0).2
        = seqNumberString
            (firmSeqPlain.displaySettings.bind (fun ds => ds.customInvoicePrefix))
            (nextNum fmtStart1)
      ∧ firmCounter (createNewBillOk 0 0 "u" "c" "p" [] 0 "NEW1" stSeq0).1.firmDetails
        = some (nextNum fmtStart1)
      ∧ (∀ (g : FirmDetails), stSeq0.firmStore = some g →
          firmCounter (createNewBillOk 0 0 "u" "c" "p" [] 0 "NEW1" stSeq0).1.firmStore
          = some (nextNum fmtStart1))
      ∧ (∀ (c : Int), fmtStart1.currentNumber = some c → nextNum fmtStart1 = c + 1))
    ∧ ((runCreates 0 0 "u" "c" "p" [] 0 (fun _ => "X") 0 2 stSeq0).2
        = (List.range 2).map (fun (j : Nat) =>
            seqNumberString
              (firmSeqPlain.displaySettings.bind (fun ds => ds.customInvoicePrefix))
              (nextNum fmtStart1 + (j : Int)))
      ∧ (1 ≤ 2 →
          firmCounter (runCreates 0 0 "u" "c" "p" [] 0 (fun _ => "X") 0 2 stSeq0).1.firmDetails
          = some (nextNum fmtStart1 + (2 : Nat) - 1))
      ∧ (∀ (g : FirmDetails), stSeq0.firmStore = some g → 1 ≤ 2 →
          firmCounter (runCreates 0 0 "u" "c" "p" [] 0 (fun _ => "X") 0 2 stSeq0).1.firmStore
          = some (nextNum fmtStart1 + (2 : Nat) - 1))
      ∧ (∀ (c : Int), fmtStart1.currentNumber = some c →
          firmCounter (runCreates 0 0 "u" "c" "p" [] 0 (fun _ => "X") 0 2 stSeq0).1.firmDetails
          = some (c + (2 : Nat)))) := by
  obtain ⟨h1, h2, h3⟩ := C5_counter_advances_only_on_create
  exact ⟨h1 {} {} invE0 "doc1" rfl (by decide),
    h2 0 0 "u" "c" "p" [] 0 "NEW1" stSeq0 firmSeqPlain fmtStart1 rfl rfl rfl rfl,
    h3 0 0 "u" "c" "p" [] 0 (fun _ => "X") 2 0 stSeq0 firmSeqPlain fmtStart1 rfl rfl rfl rfl⟩

/-! ## C8 -/

/-- C8: after every successful customer add and every successful customer
update the customer list is pairwise sorted by name under the collation
`lc` (any total, transitive `localeCompare`), and deleting a customer
preserves sortedness. -/
theorem C8_customer_list_sorted (lc : String → String → Int)
    (htrans : ∀ x y z, lc x y ≤ 0 → lc y z ≤ 0 → lc x z ≤ 0)
    (htotal : ∀ x y, lc x y ≤ 0 ∨ lc y x ≤ 0) :
    (∀ (prev : List Customer) (c : Customer),
      (handleAddCustomer lc prev c).Pairwise (fun a b => lc a.name b.name ≤ 0))
    ∧ (∀ (prev : List Customer) (id : String) (data : CustomerUpdate),
      (handleUpdateCustomer lc prev id data).Pairwise (fun a b => lc a.name b.name ≤ 0))
    ∧ (∀ (prev : List Customer) (id : String),
      prev.Pairwise (fun a b => lc a.name b.name ≤ 0) →
      (handleDeleteCustomer prev id).Pairwise (fun a b => lc a.name b.name ≤ 0)) := by
  have hT : ∀ (a b c : Customer), customerLe lc a b = true → customerLe lc b c = true →
      customerLe lc a c = true := by
    intro a b c hab hbc
    simp only [customerLe, decide_eq_true_eq] at hab hbc ⊢
    exact htrans _ _ _ hab hbc
  have hTot : ∀ (a b : Customer), (customerLe lc a b || customerLe lc b a) = true := by
    intro a b
    simp only [customerLe, Bool.or_eq_true, decide_eq_true_eq]
    exact htotal _ _
  refine ⟨?_, ?_, ?_⟩
  · intro prev c
    exact (List.sorted_mergeSort hT hTot (prev ++ [c])).imp
      (by intro a b h; simpa [customerLe] using h)
  · intro prev id data
    exact (List.sorted_mergeSort hT hTot
      (prev.map (fun c => if c.id = id then applyCustomerUpdate c data else c))).imp
      (by intro a b h; simpa [customerLe] using h)
  · intro prev id hsorted
    exact hsorted.sublist (List.filter_sublist prev)

/-- A concrete collation: code-point string order rendered as a
`localeCompare`-style integer. -/
def localeByCodepoint (a b : String) : Int :=
  if a ≤ b then (if b ≤ a then 0 else -1) else 1

theorem localeByCodepoint_le_iff (x y : String) :
    localeByCodepoint x y ≤ 0 ↔ x ≤ y := by
  unfold localeByCodepoint
  by_cases h : x ≤ y
  · rw [if_pos h]
    by_cases h2 : y ≤ x
    · rw [if_pos h2]
      simp [h]
    · rw [if_neg h2]
      simp [h]
  · rw [if_neg h]
    simp [h]

/-- C8 witness: the sortedness invariants under the concrete code-point
collation. -/
theorem C8_customer_list_sorted_witness :
    (∀ (prev : List Customer) (c : Customer),
      (handleAddCustomer localeByCodepoint prev c).Pairwise
        (fun a b => localeByCodepoint a.name b.name ≤ 0))
    ∧ (∀ (prev : List Customer) (id : String) (data : CustomerUpdate),
      (handleUpdateCustomer localeByCodepoint prev id data).Pairwise
        (fun a b => localeByCodepoint a.name b.name ≤ 0))
    ∧ (∀ (prev : List Customer) (id : String),
      prev.Pairwise (fun a b => localeByCodepoint a.name b.name ≤ 0) →
      (handleDeleteCustomer prev id).Pairwise
        (fun a b => localeByCodepoint a.name b.name ≤ 0)) :=
  C8_customer_list_sorted localeByCodepoint
    (fun x y z hxy hyz =>
      (localeByCodepoint_le_iff x z).mpr
        (le_trans ((localeByCodepoint_le_iff x y).mp hxy)
          ((localeByCodepoint_le_iff y z).mp hyz)))
    (fun x y =>
      (le_total x y).imp (localeByCodepoint_le_iff x y).mpr
        (localeByCodepoint_le_iff y x).mpr)

/-! ## C9 -/

theorem uint32_le_iff_toNat_le (x y : UInt32) : x ≤ y ↔ x.toNat ≤ y.toNat := by
  simp [UInt32.le_def, BitVec.le_def, UInt32.toNat]

theorem ofNat_sub32_isUpper (n : Nat) (h1 : 97 ≤ n) (h2 : n ≤ 122) :
    (Char.ofNat (n - 32)).isUpper = true := by
  interval_cases n <;> decide

theorem alnum_toUpper_upper_or_digit (c : Char) (h : c.isAlphanum = true) :
    (c.toUpper.isUpper || c.toUpper.isDigit) = true := by
  simp only [Char.isAlphanum, Char.isAlpha, Char.isUpper, Char.isLower, Char.isDigit,
    Bool.or_eq_true, Bool.and_eq_true, decide_eq_true_eq] at h
  have hc : c.toNat = c.val.toNat := rfl
  have e48 : ((48 : UInt32)).toNat = 48 := rfl
  have e57 : ((57 : UInt32)).toNat = 57 := rfl
  have e65 : ((65 : UInt32)).toNat = 65 := rfl
  have e90 : ((90 : UInt32)).toNat = 90 := rfl
  have e97 : ((97 : UInt32)).toNat = 97 := rfl
  have e122 : ((122 : UInt32)).toNat = 122 := rfl
  rcases h with (⟨h1, h2⟩ | ⟨h1, h2⟩) | ⟨h1, h2⟩
  · have ha := (uint32_le_iff_toNat_le 65 c.val).mp h1
    have hb := (uint32_le_iff_toNat_le c.val 90).mp h2
    have hn : ¬(c.toNat ≥ 97 ∧ c.toNat ≤ 122) := by
      rw [hc]
      omega
    have heq : c.toUpper = c := by
      show (if c.toNat ≥ 97 ∧ c.toNat ≤ 122 then Char.ofNat (c.toNat - 32) else c) = c
      rw [if_neg hn]
    rw [heq]
    have hup : c.isUpper = true := by
      simp only [Char.isUpper, Bool.and_eq_true, decide_eq_true_eq]
      exact ⟨h1, h2⟩
    simp [hup]
  · have ha := (uint32_le_iff_toNat_le 97 c.val).mp h1
    have hb := (uint32_le_iff_toNat_le c.val 122).mp h2
    have heq : c.toUpper = Char.ofNat (c.toNat - 32) := by
      show (if c.toNat ≥ 97 ∧ c.toNat ≤ 122 then Char.ofNat (c.toNat - 32) else c) = _
      rw [if_pos (by rw [hc]; omega)]
    rw [heq]
    have hup := ofNat_sub32_isUpper c.toNat (by rw [hc]; omega) (by rw [hc]; omega)
    simp [hup]
  · have ha := (uint32_le_iff_toNat_le 48 c.val).mp h1
    have hb := (uint32_le_iff_toNat_le c.val 57).mp h2
    have hn : ¬(c.toNat ≥ 97 ∧ c.toNat ≤ 122) := by
      rw [hc]
      omega
    have heq : c.toUpper = c := by
      show (if c.toNat ≥ 97 ∧ c.toNat ≤ 122 then Char.ofNat (c.toNat - 32) else c) = c
      rw [if_neg hn]
    rw [heq]
    have hdig : c.isDigit = true := by
      simp only [Char.isDigit, Bool.and_eq_true, decide_eq_true_eq]
      exact ⟨h1, h2⟩
    simp [hdig]

/-- C9: every custom invoice prefix value stored through the firm-setup
input handler has length at most 10 and consists only of uppercase letters
and digits — the handler strips non-alphanumerics, uppercases and truncates
to 10 characters. -/
theorem C9_custom_invoice_pfx_sanitized (value : String) :
    (sanitizeCustomInvoicePfx value).length ≤ 10
    ∧ ∀ c ∈ (sanitizeCustomInvoicePfx value).toList,
        (c.isUpper || c.isDigit) = true := by
  constructor
  · show (((value.toList.filter Char.isAlphanum).map Char.toUpper).take 10).length ≤ 10
    exact List.length_take_le 10 _
  · intro c hc
    have hc2 : c ∈ (value.toList.filter Char.isAlphanum).map Char.toUpper :=
      List.mem_of_mem_take hc
    obtain ⟨d, hd, rfl⟩ := List.mem_map.mp hc2
    exact alnum_toUpper_upper_or_digit d (List.of_mem_filter hd)

/-- C9 witness: the sanitizer bound at a concrete raw input. -/
theorem C9_custom_invoice_pfx_sanitized_witness :
    (sanitizeCustomInvoicePfx "shree-oil & 12345 mills!").length ≤ 10
    ∧ ∀ c ∈ (sanitizeCustomInvoicePfx "shree-oil & 12345 mills!").toList,
        (c.isUpper || c.isDigit) = true :=
  C9_custom_invoice_pfx_sanitized "shree-oil & 12345 mills!"

/-! ## C10 -/

theorem keepTruthy_eq (x : Option String) :
    (x ≠ none → x ≠ some "" → keepTruthy x = x)
    ∧ ((x = none ∨ x = some "") → keepTruthy x = none) := by
  cases x with
  | none => simp [keepTruthy]
  | some s =>
    constructor
    · intro _ hne
      have hs : s ≠ "" := fun h => hne (by rw [h])
      simp [keepTruthy, hs]
    · intro h
      rcases h with h | h
      · exact absurd h (by simp)
      · injection h with hs
        simp [keepTruthy, hs]

theorem isSequential_elim (firm : Option FirmDetails) (h : isSequential firm = true) :
    ∃ f fmt, firm = some f ∧ f.invoiceFormat = some fmt
      ∧ fmt.type = some "sequential" := by
  cases firm with
  | none => exact absurd h (by simp [isSequential])
  | some f =>
    cases hf : f.invoiceFormat with
    | none =>
      rw [isSequential, hf] at h
      exact absurd h (by simp)
    | some fmt =>
      rw [isSequential, hf] at h
      exact ⟨f, fmt, rfl, hf, by simpa using h⟩

/-- Concrete fixture: a preview whose single item carries a present but
empty `lineId`. -/
def invPreviewEmptyLineId : InvoiceData :=
  { id := none, invoiceNumber := "N", date := 0, customerName := "c",
    customerPhone := "p",
    items := [ { product := { id := 1, name := "A", price := 100 }, quantity := 2,
                 lineId := some "", gstRate := some 5 } ],
    subtotal := 200, gstAmount := 10, grandTotal := 210, userId := "u" }

/-- C10 counterexample: a preview item whose `lineId` is present (the empty
string) loses it on save — the stored item has no `lineId` — because the
code drops `lineId` by JS truthiness, not by absence; so not only absent
optional fields are dropped. -/
theorem C10_counterexample_present_lineId_dropped :
    invPreviewEmptyLineId.items.map (fun it => it.lineId) = [some ""]
    ∧ (handleSaveInvoice { createOutcome := some "NEW1" } {} invPreviewEmptyLineId).2
      = true
    ∧ (handleSaveInvoice { createOutcome := some "NEW1" } {}
        invPreviewEmptyLineId).1.invoices.map
          (fun kv => kv.2.items.map (fun it => it.lineId)) = [[none]] := by
  refine ⟨by decide, by decide, by decide⟩

/-- C10 (amended): a successful save of a new preview persists its content
unchanged — the stored record keeps the preview's `invoiceNumber`, `date`,
customer fields, totals and `userId` verbatim and recomputes nothing; each
stored item keeps its product id, name, price, quantity and `gstRate`
(dropped exactly when absent), while `lineId` and the product's `docId` are
dropped when absent or empty (JS-falsy) and kept verbatim otherwise; the
save adds only the store-assigned id (on the caller's current invoice) and
the server timestamp `createdAt`. -/
theorem C10_save_persists_preview (env : StoreEnv) (st : AppState)
    (inv : InvoiceData) (nid : String)
    (hid : inv.id = none) (hc : env.createOutcome = some nid)
    (hsucc : (handleSaveInvoice env st inv).2 = true) :
    (handleSaveInvoice env st inv).1.invoices
      = st.invoices ++ [(nid, { finalDataToSave inv with createdAt := some env.now })]
    ∧ (finalDataToSave inv).invoiceNumber = inv.invoiceNumber
    ∧ (finalDataToSave inv).date = inv.date
    ∧ (finalDataToSave inv).customerName = inv.customerName
    ∧ (finalDataToSave inv).customerPhone = inv.customerPhone
    ∧ (finalDataToSave inv).subtotal = inv.subtotal
    ∧ (finalDataToSave inv).gstAmount = inv.gstAmount
    ∧ (finalDataToSave inv).grandTotal = inv.grandTotal
    ∧ (finalDataToSave inv).userId = inv.userId
    ∧ (finalDataToSave inv).items = inv.items.map sanitizeItem
    ∧ (∀ (it : BillItem),
        (sanitizeItem it).product.id = it.product.id
        ∧ (sanitizeItem it).product.name = it.product.name
        ∧ (sanitizeItem it).product.price = it.product.price
        ∧ (sanitizeItem it).quantity = it.quantity
        ∧ (sanitizeItem it).gstRate = it.gstRate
        ∧ (it.lineId ≠ none → it.lineId ≠ some "" →
            (sanitizeItem it).lineId = it.lineId)
        ∧ ((it.lineId = none ∨ it.lineId = some "") →
            (sanitizeItem it).lineId = none)
        ∧ (it.product.docId ≠ none → it.product.docId ≠ some "" →
            (sanitizeItem it).product.docId = it.product.docId)
        ∧ ((it.product.docId = none ∨ it.product.docId = some "") →
            (sanitizeItem it).product.docId = none))
    ∧ (handleSaveInvoice env st inv).1.currentInvoice
      = some ({ inv with id := some nid })
    ∧ ({ finalDataToSave inv with createdAt := some env.now } : StoredInvoice).createdAt
      = some env.now := by
  have hmain : (handleSaveInvoice env st inv).1.invoices
        = st.invoices ++ [(nid, { finalDataToSave inv with createdAt := some env.now })]
      ∧ (handleSaveInvoice env st inv).1.currentInvoice
        = some ({ inv with id := some nid }) := by
    by_cases hseq : isSequential st.firmDetails = true
    · obtain ⟨f, fmt, hfd, hf, ht⟩ := isSequential_elim st.firmDetails hseq
      by_cases hok : env.firmUpdateOk = true
      · rw [handleSaveInvoice_create_seq_ok env st inv f fmt nid hid hc hfd hf ht hok]
        exact ⟨rfl, rfl⟩
      · rw [handleSaveInvoice_create_seq_firmfail env st inv f fmt nid hid hc hfd hf ht
          (by simpa using hok)] at hsucc
        exact absurd hsucc (by simp)
    · rw [handleSaveInvoice_create_nonseq_ok env st inv nid hid hc
        (by simpa using hseq)]
      exact ⟨rfl, rfl⟩
  refine ⟨hmain.1, rfl, rfl, rfl, rfl, rfl, rfl, rfl, rfl, rfl, ?_, hmain.2, rfl⟩
  intro it
  refine ⟨rfl, rfl, rfl, rfl, rfl, ?_, ?_, ?_, ?_⟩
  · intro h1 h2
    exact (keepTruthy_eq it.lineId).1 h1 h2
  · intro h
    exact (keepTruthy_eq it.lineId).2 h
  · intro h1 h2
    exact (keepTruthy_eq it.product.docId).1 h1 h2
  · intro h
    exact (keepTruthy_eq it.product.docId).2 h

/-- C10 witness: the amended save-persistence property at the concrete
preview and a concrete successful create. -/
theorem C10_save_persists_preview_witness :
    (handleSaveInvoice { createOutcome := some "NEW1" } {} invPreviewEmptyLineId).1.invoices
      = (({} : AppState)).invoices ++
        [("NEW1", { finalDataToSave invPreviewEmptyLineId with
          createdAt := some (({ createOutcome := some "NEW1" } : StoreEnv)).now })]
    ∧ (finalDataToSave invPreviewEmptyLineId).invoiceNumber
      = invPreviewEmptyLineId.invoiceNumber
    ∧ (finalDataToSave invPreviewEmptyLineId).date = invPreviewEmptyLineId.date
    ∧ (finalDataToSave invPreviewEmptyLineId).customerName
      = invPreviewEmptyLineId.customerName
    ∧ (finalDataToSave invPreviewEmptyLineId).customerPhone
      = invPreviewEmptyLineId.customerPhone
    ∧ (finalDataToSave invPreviewEmptyLineId).subtotal = invPreviewEmptyLineId.subtotal
    ∧ (finalDataToSave invPreviewEmptyLineId).gstAmount = invPreviewEmptyLineId.gstAmount
    ∧ (finalDataToSave invPreviewEmptyLineId).grandTotal
      = invPreviewEmptyLineId.grandTotal
    ∧ (finalDataToSave invPreviewEmptyLineId).userId = invPreviewEmptyLineId.userId
    ∧ (finalDataToSave invPreviewEmptyLineId).items
      = invPreviewEmptyLineId.items.map sanitizeItem
    ∧ (∀ (it : BillItem),
        (sanitizeItem it).product.id = it.product.id
        ∧ (sanitizeItem it).product.name = it.product.name
        ∧ (sanitizeItem it).product.price = it.product.price
        ∧ (sanitizeItem it).quantity = it.quantity
        ∧ (sanitizeItem it).gstRate = it.gstRate
        ∧ (it.lineId ≠ none → it.lineId ≠ some "" →
            (sanitizeItem it).lineId = it.lineId)
        ∧ ((it.lineId = none ∨ it.lineId = some "") →
            (sanitizeItem it).lineId = none)
        ∧ (it.product.docId ≠ none → it.product.docId ≠ some "" →
            (sanitizeItem it).product.docId = it.product.docId)
        ∧ ((it.product.docId = none ∨ it.product.docId = some "") →
            (sanitizeItem it).product.docId = none))
    ∧ (handleSaveInvoice { createOutcome := some "NEW1" } {}
        invPreviewEmptyLineId).1.currentInvoice
      = some ({ invPreviewEmptyLineId with id := some "NEW1" })
    ∧ ({ finalDataToSave invPreviewEmptyLineId with
          createdAt := some (({ createOutcome := some "NEW1" } : StoreEnv)).now }
        : StoredInvoice).createdAt
      = some (({ createOutcome := some "NEW1" } : StoreEnv)).now :=
  C10_save_persists_preview { createOutcome := some "NEW1" } {} invPreviewEmptyLineId
    "NEW1" rfl rfl (by decide)
